import Mathlib

/-!
Verification development for the MyWebAgentBackend chat gateway.

Shallow embedding of the session/turn orchestration core:
stream accumulation and turn outcomes (`ConversationManager._answer_question`
and the textually identical `GPTServer._answer_question`), tool execution
(`_process_tool_result`, `answer_question_with_tools`), the heartbeat
supervisor (`HeartbeatManager`), the per-connection message router
(`GPTServer.handler`, `MessageHandler.handle_message`), and the two
conversation-transcript views (`answer_conversation_message`).

External collaborators (the model backend stream, the JSON library, HTTP
transport and the database) are abstracted as explicit inputs: a list of
deltas, parse-outcome flags, an HTTP outcome value, and a returned list of
persisted message records. Nondeterministic fields of persisted messages
(uuid message ids, creation timestamps) are omitted from the record type;
every claim here is insensitive to them.
-/

namespace MWAB

/-- Error codes referenced by the orchestration core. Modelled from the spec:
the module `src/interface/ErrorCode.py` is imported throughout the tree but
its file is absent from the sources; the member names below are exactly the
ones its callers in `src/` reference, and the spec (section 7) only
distinguishes the kinds, not the integer values, so the codes are embedded
as distinct constructors. -/
inductive ErrorCode where
  | TOOL_MISSING_ID
  | TOOL_MISSING_NAME
  | TOOL_MISSING_PARAMS
  | TOOL_MISSING_ADDRESS
  | TOOL_HTTP_ERROR
  | TOOL_EXECUTION_ERROR
  | TOOL_PARAMS_FORMAT_ERROR
  | TOOL_TIMEOUT
  | MSG_GPT_RESPONSE_ERROR
  | MSG_INVALID_TYPE
  | MSG_JSON_PARSE_ERROR
  | SERVER_INTERNAL_ERROR
  | SERVER_CONNECTION_ERROR
  | SERVER_SETTINGS_UPDATE_ERROR
  | HEARTBEAT_TIMEOUT
  | HEARTBEAT_MAX_RETRIES
  deriving DecidableEq, Repr

/-- One entry of `delta.tool_calls` in the model stream: `id` is
`delta.tool_calls[0].id` (None on continuation fragments), `name` is
`delta.tool_calls[0].function.name`, `arguments` is
`delta.tool_calls[0].function.arguments`. -/
structure ToolCallFragment where
  id : Option String
  name : Option String
  arguments : String
  deriving DecidableEq, Repr

/-- One streamed delta (`chunk.choices[0].delta`). The code only ever reads
`delta.tool_calls[0]`, so the tool-call list is embedded as its optional
head. -/
structure Delta where
  content : Option String
  toolCall : Option ToolCallFragment
  deriving DecidableEq, Repr

/-- One fully assembled pending tool call, as accumulated in the
`function_calls` list of `_answer_question`
(`ConversationManager.py:311-318`, `GPTServer.py:408-415`). -/
structure FunctionCall where
  id : String
  name : String
  parameters : String
  server_address : String
  deriving DecidableEq, Repr

/-- A persisted message record (`db_ops.create_message` argument), without
the nondeterministic `message_id` and `created_time` fields. `tool_calls`
holds the `(id, name, arguments)` triples that the code serializes to JSON
before storing. -/
structure MessageRec where
  role : String
  content : Option String
  tool_call_id : Option String
  tool_calls : Option (List (String × String × String))
  deriving DecidableEq, Repr

/-- An outbound frame relevant to the claims. -/
inductive Frame where
  | answer (fragment : String)
  | selectTools (calls : List FunctionCall)
  | errorFrame (code : ErrorCode)
  | logoutSuccess
  | conversationMessage (conversation_id : String) (messages : List (String × Option String))
  deriving DecidableEq, Repr

/-- Python exceptions that can arise inside the streaming loop of
`_answer_question`: `function_calls[-1]` on an empty list raises IndexError
(`ConversationManager.py:318`); `available_functions[name]` with an absent
key raises KeyError (`ConversationManager.py:315`). -/
inductive PyExc where
  | indexError
  | keyError
  deriving DecidableEq, Repr

/-- Structured errors raised by the orchestrator: `_answer_question` wraps
every exception of its body into
`MessageProcessingError(..., ErrorCode.MSG_GPT_RESPONSE_ERROR)`
(`ConversationManager.py:337-340`, `GPTServer.py:434-437`). -/
inductive GPTError where
  | messageProcessing (code : ErrorCode)
  deriving DecidableEq, Repr

/-- Lookup in the `available_functions` dict built by successive
assignments: a later binding for the same key overwrites an earlier one, so
the lookup takes the last matching entry. -/
def dictLookup (d : List (String × String)) (k : String) : Option String :=
  (d.reverse.find? (fun p => p.1 == k)).map (·.2)

/-- Accumulator state of the streaming loop of `_answer_question`:
the pending-call list `function_calls`, the accumulated answer text
`full_response`, and the frames sent to the user so far. -/
structure TurnAcc where
  function_calls : List FunctionCall
  full_response : String
  sent : List Frame
  deriving DecidableEq, Repr

/-- Initial accumulator (`function_calls = []`, `full_response = ""`). -/
def initAcc : TurnAcc := ⟨[], "", []⟩

/-- Append `args` to the `parameters` buffer of the last pending call
(`function_calls[-1]["parameters"] += ...`); `none` models the IndexError
raised when the list is empty. -/
def appendToLastParams : List FunctionCall → String → Option (List FunctionCall)
  | [], _ => none
  | [c], args => some [{ c with parameters := c.parameters ++ args }]
  | c :: c2 :: cs, args => (appendToLastParams (c2 :: cs) args).map (c :: ·)

/-- Process one streamed delta, mirroring the loop body at
`ConversationManager.py:299-318` / `GPTServer.py:396-415`: a content
fragment is appended to `full_response` and forwarded as a `server_answer`
frame; an id-bearing tool-call fragment starts a new pending call with its
address resolved from `available_functions`; an id-less fragment appends
its argument text to the last pending call. -/
def processDelta (available : List (String × String)) (acc : TurnAcc) (d : Delta) :
    Except PyExc TurnAcc :=
  let acc1 : TurnAcc :=
    match d.content with
    | none => acc
    | some c =>
        { acc with full_response := acc.full_response ++ c,
                   sent := acc.sent ++ [Frame.answer c] }
  match d.toolCall with
  | none => .ok acc1
  | some f =>
    match f.id with
    | some i =>
        match f.name with
        | none => .error .keyError
        | some n =>
            match dictLookup available n with
            | none => .error .keyError
            | some addr =>
                .ok { acc1 with
                        function_calls := acc1.function_calls ++ [⟨i, n, f.arguments, addr⟩] }
    | none =>
        match appendToLastParams acc1.function_calls f.arguments with
        | none => .error .indexError
        | some fcs => .ok { acc1 with function_calls := fcs }

/-- Consume the whole delta stream, stopping at the first exception. -/
def processDeltas (available : List (String × String)) :
    TurnAcc → List Delta → Except PyExc TurnAcc
  | acc, [] => .ok acc
  | acc, d :: ds =>
    match processDelta available acc d with
    | .error e => .error e
    | .ok acc2 => processDeltas available acc2 ds

/-- Result of one turn: every frame sent to the user and every message
persisted through `db_ops.create_message`. -/
structure TurnResult where
  sent : List Frame
  persisted : List MessageRec
  deriving DecidableEq, Repr

/-- The turn protocol of `_answer_question`
(`ConversationManager.py:295-340`, `GPTServer.py:392-437`; the two bodies
are textually identical apart from the send helper): consume the stream;
afterwards, a non-empty pending list yields one `server_select_function`
frame and persists nothing, an empty pending list persists one assistant
message carrying the accumulated text and no tool calls. Any exception of
the body is converted to
`MessageProcessingError(MSG_GPT_RESPONSE_ERROR)`. -/
def answerQuestionTurn (available : List (String × String)) (stream : List Delta) :
    Except GPTError TurnResult :=
  match processDeltas available initAcc stream with
  | .error _ => .error (.messageProcessing .MSG_GPT_RESPONSE_ERROR)
  | .ok acc =>
      if acc.function_calls.isEmpty then
        .ok { sent := acc.sent,
              persisted := [{ role := "assistant", content := some acc.full_response,
                              tool_call_id := none, tool_calls := none }] }
      else
        .ok { sent := acc.sent ++ [Frame.selectTools acc.function_calls],
              persisted := [] }

/-- Predicate picking out `server_select_function` frames. -/
def isSelectFrame : Frame → Bool
  | .selectTools _ => true
  | _ => false

/-! Tool execution (`_process_tool_result`, `answer_question_with_tools`;
identical in `ConversationManager.py:218-274` and `GPTServer.py:137-193`). -/

/-- One selected tool call as submitted by the client. `none` models an
absent dict key, `some ""` a present but empty value; both are falsy for
the `select_tool.get(field)` checks, but only an absent key raises
KeyError on `select_tool[field]`. -/
structure SelectTool where
  id : Option String
  name : Option String
  parameters : Option String
  server_address : Option String
  deriving DecidableEq, Repr

/-- Truthiness of `d.get(key)` for an optional string field. -/
def falsyField : Option String → Bool
  | none => true
  | some s => s == ""

/-- Parse outcome of the HTTP response body, as seen through
`json.loads(tool_result.text)` and the `result` key check. -/
inductive BodyParse where
  | unparseable
  | parsed (hasResult : Bool) (resultText : String)
  deriving DecidableEq, Repr

/-- Outcome of `client.post(select_tool["server_address"], ...)`. -/
inductive HttpOutcome where
  | timeout
  | response (status : Nat) (body : BodyParse)
  deriving DecidableEq, Repr

/-- Exceptions that can leave the `try` body of `_process_tool_result`. -/
inductive ToolBodyExc where
  | jsonDecodeError
  | timeoutException
  | toolExecutionError (code : ErrorCode)
  deriving DecidableEq, Repr

/-- What `_process_tool_result` raises to its caller: a
`ToolExecutionError` with an error code, or a bare KeyError escaping the
logging statement of the blanket handler. -/
inductive ToolErr where
  | toolExecutionError (code : ErrorCode)
  | keyError
  deriving DecidableEq, Repr

/-- Body of the `try` block of `_process_tool_result`
(`ConversationManager.py:221-265`): field validation in order
id / name / parameters / server_address raising a `ToolExecutionError`
with the field-specific code; then `json.loads(parameters)`; then the
HTTP call; a non-200 status raises `ToolExecutionError(TOOL_HTTP_ERROR)`;
an unparseable body raises JSONDecodeError; a body without a `result`
field raises `ToolExecutionError(TOOL_EXECUTION_ERROR)`; on success one
`tool` message is persisted whose content is the serialized result and
whose `tool_call_id` is the call id. `paramsOk` abstracts whether
`json.loads(select_tool["parameters"])` succeeds. -/
def processToolBody (tool : SelectTool) (paramsOk : Bool) (http : HttpOutcome) :
    Except ToolBodyExc (List MessageRec) :=
  if falsyField tool.id then .error (.toolExecutionError .TOOL_MISSING_ID)
  else if falsyField tool.name then .error (.toolExecutionError .TOOL_MISSING_NAME)
  else if falsyField tool.parameters then .error (.toolExecutionError .TOOL_MISSING_PARAMS)
  else if falsyField tool.server_address then .error (.toolExecutionError .TOOL_MISSING_ADDRESS)
  else if !paramsOk then .error .jsonDecodeError
  else
    match http with
    | .timeout => .error .timeoutException
    | .response status body =>
        if status ≠ 200 then .error (.toolExecutionError .TOOL_HTTP_ERROR)
        else
          match body with
          | .unparseable => .error .jsonDecodeError
          | .parsed hasResult resultText =>
              if !hasResult then .error (.toolExecutionError .TOOL_EXECUTION_ERROR)
              else .ok [{ role := "tool", content := some resultText,
                          tool_call_id := tool.id, tool_calls := none }]

/-- The whole of `_process_tool_result` including its `except` clauses
(`ConversationManager.py:266-274`): JSONDecodeError is re-raised as
`ToolExecutionError(TOOL_PARAMS_FORMAT_ERROR)`, httpx.TimeoutException as
`ToolExecutionError(TOOL_TIMEOUT)`, and every other exception — including
the `ToolExecutionError`s raised inside the `try` body, since
`ToolExecutionError` is an `Exception` subclass — is re-raised as
`ToolExecutionError(TOOL_EXECUTION_ERROR)` after the handler logs
`select_tool["name"]`, which itself raises KeyError when the `name` key is
absent. -/
def processToolResult (tool : SelectTool) (paramsOk : Bool) (http : HttpOutcome) :
    Except ToolErr (List MessageRec) :=
  match processToolBody tool paramsOk http with
  | .ok msgs => .ok msgs
  | .error .jsonDecodeError => .error (.toolExecutionError .TOOL_PARAMS_FORMAT_ERROR)
  | .error .timeoutException => .error (.toolExecutionError .TOOL_TIMEOUT)
  | .error (.toolExecutionError _) =>
      match tool.name with
      | none => .error .keyError
      | some _ => .error (.toolExecutionError .TOOL_EXECUTION_ERROR)

/-- Sequential execution of the selected calls
(`for select_tool in select_tools: await self._process_tool_result(...)`,
`ConversationManager.py:76-77`): the first raised error aborts the loop,
so no later call runs; messages persisted by earlier successful calls
remain. Each call is paired with its environment (parameters-parse outcome
and HTTP outcome). -/
def runSelectedTools : List (SelectTool × Bool × HttpOutcome) →
    List MessageRec × Option ToolErr
  | [] => ([], none)
  | (t, p, h) :: rest =>
    match processToolResult t p h with
    | .error e => ([], some e)
    | .ok msgs =>
        let r := runSelectedTools rest
        (msgs ++ r.1, r.2)

/-- The execute-tools step `answer_question_with_tools`
(`ConversationManager.py:39-90`): the comprehension building
`gpt_tool_calls` reads `tool["id"]`, `tool["name"]`, `tool["parameters"]`
and raises KeyError before anything is persisted if any of those keys is
absent; otherwise one assistant message with the serialized tool-call list
is persisted, then each selected call is executed in order. The follow-up
turn on the reloaded history is outside this definition. -/
def answerQuestionWithTools (tools : List (SelectTool × Bool × HttpOutcome)) :
    List MessageRec × Option ToolErr :=
  if tools.all (fun t => t.1.id.isSome && t.1.name.isSome && t.1.parameters.isSome) then
    let gptToolCalls := tools.map (fun t =>
      (t.1.id.getD "", t.1.name.getD "", t.1.parameters.getD ""))
    let assistantMsg : MessageRec :=
      { role := "assistant", content := none, tool_call_id := none,
        tool_calls := some gptToolCalls }
    let r := runSelectedTools tools
    (assistantMsg :: r.1, r.2)
  else ([], some .keyError)

/-! Heartbeat supervisor (`HeartbeatManager.py`). One loop iteration of
`_heartbeat_loop` (lines 81-119) sleeps, sends the heartbeat frame via
`send_heartbeat` (lines 36-57) and waits for the acknowledgement. The
environment of an iteration is abstracted as one of: the ack arrives in
time, the wait times out, or the connection is already closed so every
send on it raises ConnectionClosed. -/

/-- Frames the heartbeat supervisor writes to the connection. -/
inductive HbFrame where
  | heartbeat
  | errorFrame (code : ErrorCode)
  deriving DecidableEq, Repr

/-- Observable actions of the supervisor: a successful send, a send
attempt that raised ConnectionClosed, and a call of
`websocket.close(code, reason)`. -/
inductive HbAction where
  | sent (f : HbFrame)
  | sendFailed (f : HbFrame)
  | closedConn (code : Nat) (reason : String)
  deriving DecidableEq, Repr

/-- State of one `HeartbeatManager` (`__init__`, lines 12-29), together
with the trace of actions performed on the connection and a flag recording
that an exception escaped the loop body (which ends the supervisor
task). -/
structure HbState where
  retry_count : Nat
  max_retries : Nat
  is_running : Bool
  escaped : Bool
  trace : List HbAction
  deriving DecidableEq, Repr

/-- Fresh supervisor state: `retry_count = 0`, `is_running = True`
(`max_retries` defaults to 3). -/
def hbInit (max_retries : Nat := 3) : HbState :=
  { retry_count := 0, max_retries := max_retries, is_running := true,
    escaped := false, trace := [] }

/-- Environment outcome of one loop iteration. -/
inductive HbEvent where
  | ack
  | ackTimeout
  | connClosed
  deriving DecidableEq, Repr

/-- One iteration of the `while` body of `_heartbeat_loop`:

on `ack`, the heartbeat frame is sent and `handle_message` (lines 59-66)
resets `retry_count` to 0 before the wait finishes;

on `ackTimeout`, `_wait_for_heartbeat_ack` raises TimeoutError, the
handler increments `retry_count` and sends a `HEARTBEAT_TIMEOUT` error
frame, and when the count reaches `max_retries` it additionally sends the
fatal `HEARTBEAT_MAX_RETRIES` frame, sets `is_running` false and calls
`handle_heartbeat_failure`, which closes the connection with code 1000 and
reason "心跳超时" (lines 88-103, 31-34);

on `connClosed`, `websocket.send` of the heartbeat frame raises
ConnectionClosed inside `send_heartbeat`, whose handler (lines 44-50)
attempts to send a `SERVER_CONNECTION_ERROR` error frame on the same
closed connection — that send raises again before `is_running` is
assigned, the exception propagates into the loop handler (lines 104-111),
which attempts the same error-frame send once more, and that raise escapes
the loop with `is_running` still true. -/
def hbStep (s : HbState) (e : HbEvent) : HbState :=
  match e with
  | .ack =>
      { s with retry_count := 0, trace := s.trace ++ [.sent .heartbeat] }
  | .ackTimeout =>
      let r := s.retry_count + 1
      if s.max_retries ≤ r then
        { s with retry_count := r, is_running := false,
                 trace := s.trace ++
                   [.sent .heartbeat, .sent (.errorFrame .HEARTBEAT_TIMEOUT),
                    .sent (.errorFrame .HEARTBEAT_MAX_RETRIES),
                    .closedConn 1000 "心跳超时"] }
      else
        { s with retry_count := r,
                 trace := s.trace ++
                   [.sent .heartbeat, .sent (.errorFrame .HEARTBEAT_TIMEOUT)] }
  | .connClosed =>
      { s with escaped := true,
               trace := s.trace ++
                 [.sendFailed .heartbeat,
                  .sendFailed (.errorFrame .SERVER_CONNECTION_ERROR),
                  .sendFailed (.errorFrame .SERVER_CONNECTION_ERROR)] }

/-- Run the supervisor loop over a finite schedule of iteration outcomes.
The guard mirrors `while self.is_running and self.retry_count <
self.max_retries` (line 83); a state whose body raised an escaping
exception performs no further iteration. -/
def hbRun (s : HbState) : List HbEvent → HbState
  | [] => s
  | e :: es =>
      if s.is_running && decide (s.retry_count < s.max_retries) && !s.escaped then
        hbRun (hbStep s e) es
      else s

/-- Trace emitted by `k` consecutive timed-out attempts that exhaust the
retry budget: `k - 1` probe/timeout-frame pairs, then the final probe,
its timeout frame, the fatal `HEARTBEAT_MAX_RETRIES` frame and the close
with the normal-closure code. -/
def timeoutTrace : Nat → List HbAction
  | 0 => []
  | 1 => [.sent .heartbeat, .sent (.errorFrame .HEARTBEAT_TIMEOUT),
          .sent (.errorFrame .HEARTBEAT_MAX_RETRIES), .closedConn 1000 "心跳超时"]
  | k + 2 => [.sent .heartbeat, .sent (.errorFrame .HEARTBEAT_TIMEOUT)] ++
             timeoutTrace (k + 1)

/-! Message routing (`GPTServer.handler`, `GPTServer.py:630-711`, and
`MessageHandler.handle_message`, `MessageHandler.py:119-166`) and the
`MessageFormat.RequestType` enum (`MessageFormat.py:12-20`). -/

/-- Members of the `MessageFormat.RequestType` enum, exactly as declared
at `MessageFormat.py:12-20`. -/
def requestTypeMembers : List (String × String) :=
  [("CONVERSATION_QUESTION", "conversation_question"),
   ("CONVERSATION_MESSAGE", "conversation_message"),
   ("QUESTION", "user_question"),
   ("EXECUTE_TOOLS", "execute_tools"),
   ("HEARTBEAT", "heartbeat"),
   ("SETTINGS_ADD_SERVER", "settings_add_server"),
   ("REGISTER", "register")]

/-- Attribute access `MessageFormat.RequestType.<member>.value`: `none`
models the AttributeError raised when the member does not exist. -/
def requestTypeValue (member : String) : Option String :=
  (requestTypeMembers.find? (fun p => p.1 == member)).map (·.2)

/-- Dispatch targets of the per-connection router. -/
inductive DispatchTarget where
  | logout
  | settingsAddServer
  | conversationQuestion
  | conversationMessage
  | question
  | executeTools
  | deleteConversation
  | getConversationList
  | invalidType
  deriving DecidableEq, Repr

/-- The dispatch chain of the running router `GPTServer.handler`
(`GPTServer.py:640-682`): six known message types, everything else
answered with an `MSG_INVALID_TYPE` error frame. -/
def handlerDispatch (t : String) : DispatchTarget :=
  if t == "logout" then .logout
  else if some t == requestTypeValue "SETTINGS_ADD_SERVER" then .settingsAddServer
  else if some t == requestTypeValue "CONVERSATION_QUESTION" then .conversationQuestion
  else if some t == requestTypeValue "CONVERSATION_MESSAGE" then .conversationMessage
  else if some t == requestTypeValue "QUESTION" then .question
  else if some t == requestTypeValue "EXECUTE_TOOLS" then .executeTools
  else .invalidType

/-- Keys of the `message_handlers` dict that
`MessageHandler.handle_message` builds on every call
(`MessageHandler.py:119-155`). Building the dict evaluates
`MessageFormat.RequestType.DELETE_CONVERSATION.value` and
`MessageFormat.RequestType.GET_CONVERSATION_LIST.value`; `none` models the
AttributeError raised when any referenced member is missing from the
enum, in which case no dispatch happens at all. -/
def messageHandlerDispatchKeys : Option (List String) :=
  match requestTypeValue "SETTINGS_ADD_SERVER", requestTypeValue "CONVERSATION_QUESTION",
        requestTypeValue "CONVERSATION_MESSAGE", requestTypeValue "QUESTION",
        requestTypeValue "EXECUTE_TOOLS", requestTypeValue "DELETE_CONVERSATION",
        requestTypeValue "GET_CONVERSATION_LIST" with
  | some settings, some convQ, some convM, some q, some exec, some del, some list =>
      some ["logout", settings, convQ, convM, q, exec, del, list]
  | _, _, _, _, _, _, _ => none

/-- Parse outcome of one inbound frame: `json.loads` failure inside
`WebsocketMessage.__init__` (re-raised, `WebsocketMessage.py:86-93`), a
parsed object without a `type` key (`get_type` raises KeyError,
`WebsocketMessage.py:105-111`), or a typed envelope. -/
inductive Inbound where
  | unparseable
  | noTypeField
  | typed (t : String)
  deriving DecidableEq, Repr

/-- Exceptions a dispatched handler can raise, as distinguished by the
`except` clauses of the message loop (`GPTServer.py:684-711`). -/
inductive HandlerErr where
  | jsonDecode
  | messageProcessing (code : ErrorCode)
  | toolExecution (code : ErrorCode)
  | otherExc
  deriving DecidableEq, Repr

/-- Error frame the message loop sends for a handler exception
(`GPTServer.py:684-711`): JSONDecodeError maps to
`MSG_JSON_PARSE_ERROR`, `MessageProcessingError` and `ToolExecutionError`
carry their own code, anything else maps to `SERVER_INTERNAL_ERROR`. -/
def errorFrameFor : HandlerErr → Frame
  | .jsonDecode => .errorFrame .MSG_JSON_PARSE_ERROR
  | .messageProcessing c => .errorFrame c
  | .toolExecution c => .errorFrame c
  | .otherExc => .errorFrame .SERVER_INTERNAL_ERROR

/-- Result of routing one inbound frame: the frames sent back on the
connection by the loop body itself, and whether the body closes the
connection. Frames the dispatched handlers send through the connection
registry are outside this definition. -/
structure RouterStep where
  responses : List Frame
  closesConnection : Bool
  deriving DecidableEq, Repr

/-- One iteration of the message loop of `GPTServer.handler`
(`GPTServer.py:631-711`): the frame is first offered to
`heartbeat_manager.handle_message`, which consumes acknowledgement frames
(parsed type `heartbeat_ack`, `MessageFormat.py:236-242`); an unparseable
frame raises JSONDecodeError out of `WebsocketMessage` and is answered
with a `MSG_JSON_PARSE_ERROR` error frame; a missing `type` key raises
KeyError, caught by the blanket clause as `SERVER_INTERNAL_ERROR`; a known
type runs its handler, whose exception — if any — is converted by the
`except` clauses into one error frame; an unknown type is answered with
`MSG_INVALID_TYPE`. No branch of the loop body closes the connection.
`handlerResult` abstracts the dispatched handler outcome (`none` = it
returned normally; the `logout` branch sends `logout_success` itself). -/
def routeFrame (inb : Inbound) (handlerResult : Option HandlerErr) : RouterStep :=
  match inb with
  | .unparseable => ⟨[.errorFrame .MSG_JSON_PARSE_ERROR], false⟩
  | .noTypeField => ⟨[.errorFrame .SERVER_INTERNAL_ERROR], false⟩
  | .typed t =>
      if t == "heartbeat_ack" then ⟨[], false⟩
      else
        match handlerDispatch t with
        | .invalidType => ⟨[.errorFrame .MSG_INVALID_TYPE], false⟩
        | target =>
            match handlerResult with
            | some e => ⟨[errorFrameFor e], false⟩
            | none => ⟨if target = .logout then [.logoutSuccess] else [], false⟩

/-! Conversation transcript views (`GPTServer.answer_conversation_message`,
`GPTServer.py:320-343`, versus
`ConversationManager.answer_conversation_message`,
`ConversationManager.py:165-187`), over the message dictionaries produced
by `Messages` (`src/interface/Messages.py`). -/

/-- One entry of `Messages.messages` as the transcript filters see it:
only the `role` and `content` keys are read (`content` via
`message.get("content")`, so a missing key and `None` coincide). -/
structure ChatMessage where
  role : String
  content : Option String
  deriving DecidableEq, Repr

/-- Truthiness of `message.get("content")`: `None` and the empty string
are falsy. -/
def contentTruthy : Option String → Bool
  | none => false
  | some s => !(s == "")

/-- `Messages.delete_system_message` (`Messages.py:25-26`). -/
def delete_system_message (ms : List ChatMessage) : List ChatMessage :=
  ms.filter (fun m => !(m.role == "system"))

/-- `Messages.filter_valid_conversation_messages` (`Messages.py:28-34`):
keep user messages and assistant messages with truthy content. -/
def filter_valid_conversation_messages (ms : List ChatMessage) : List ChatMessage :=
  ms.filter (fun m => m.role == "user" || (m.role == "assistant" && contentTruthy m.content))

/-- Transcript sent by the class-level `GPTServer.answer_conversation_message`
(`GPTServer.py:320-343`): it only deletes system messages. -/
def gptServerConversationView (ms : List ChatMessage) : List ChatMessage :=
  delete_system_message ms

/-- Transcript sent by the instance-level
`ConversationManager.answer_conversation_message`
(`ConversationManager.py:165-187`): it deletes system messages and then
keeps only user messages and assistant messages with content. -/
def conversationManagerView (ms : List ChatMessage) : List ChatMessage :=
  filter_valid_conversation_messages (delete_system_message ms)

/-- The `conversation_message` response frame
(`MessageFormat.create_conversation_message_response`,
`MessageFormat.py:207-214`), with each message projected to the fields the
filters distinguish. -/
def conversationMessageResponse (conversation_id : String) (ms : List ChatMessage) : Frame :=
  .conversationMessage conversation_id (ms.map (fun m => (m.role, m.content)))

/-! Lemmas about the streaming loop. -/

/-- Processing one delta appends the content fragment (if any) to the
answer buffer and sends no `server_select_function` frame. -/
lemma processDelta_ok_spec (available : List (String × String)) (acc : TurnAcc) (d : Delta)
    (acc2 : TurnAcc) (h : processDelta available acc d = .ok acc2) :
    acc2.full_response = acc.full_response ++ (d.content.getD "") ∧
    acc2.sent.filter isSelectFrame = acc.sent.filter isSelectFrame := by
  unfold processDelta at h
  cases hc : d.content with
  | none =>
      simp only [hc] at h
      cases ht : d.toolCall with
      | none =>
          simp only [ht] at h
          cases h
          simp
      | some f =>
          simp only [ht] at h
          cases hid : f.id with
          | some i =>
              simp only [hid] at h
              cases hn : f.name with
              | none => simp [hn] at h
              | some n =>
                  simp only [hn] at h
                  cases hl : dictLookup available n with
                  | none => simp [hl] at h
                  | some addr =>
                      simp only [hl] at h
                      cases h
                      simp
          | none =>
              simp only [hid] at h
              cases ha : appendToLastParams acc.function_calls f.arguments with
              | none => simp [ha] at h
              | some fcs =>
                  simp only [ha] at h
                  cases h
                  simp
  | some c =>
      simp only [hc] at h
      cases ht : d.toolCall with
      | none =>
          simp only [ht] at h
          cases h
          simp [isSelectFrame]
      | some f =>
          simp only [ht] at h
          cases hid : f.id with
          | some i =>
              simp only [hid] at h
              cases hn : f.name with
              | none => simp [hn] at h
              | some n =>
                  simp only [hn] at h
                  cases hl : dictLookup available n with
                  | none => simp [hl] at h
                  | some addr =>
                      simp only [hl] at h
                      cases h
                      simp [isSelectFrame]
          | none =>
              simp only [hid] at h
              cases ha : appendToLastParams (acc.function_calls) f.arguments with
              | none => simp [ha] at h
              | some fcs =>
                  simp only [ha] at h
                  cases h
                  simp [isSelectFrame]

/-- Joining a non-empty list of strings splits off its head. -/
lemma string_join_cons (c : String) (l : List String) :
    String.join (c :: l) = c ++ String.join l := by
  apply String.ext
  simp [String.join_eq, String.data_append]

/-- Over a whole consumed stream, the answer buffer accumulates exactly
the concatenation of the content fragments in order, and no
`server_select_function` frame is ever sent by the loop. -/
lemma processDeltas_ok_spec (available : List (String × String)) :
    ∀ (ds : List Delta) (acc acc2 : TurnAcc),
      processDeltas available acc ds = .ok acc2 →
      acc2.full_response = acc.full_response ++ String.join (ds.filterMap Delta.content) ∧
      acc2.sent.filter isSelectFrame = acc.sent.filter isSelectFrame
  | [], acc, acc2, h => by
      cases h
      simp [String.join]
  | d :: ds, acc, acc2, h => by
      unfold processDeltas at h
      cases hd : processDelta available acc d with
      | error e => simp [hd] at h
      | ok acc1 =>
          simp only [hd] at h
          obtain ⟨h1, h2⟩ := processDelta_ok_spec available acc d acc1 hd
          obtain ⟨h3, h4⟩ := processDeltas_ok_spec available ds acc1 acc2 h
          constructor
          · rw [h3, h1]
            cases hc : d.content with
            | none => simp [hc]
            | some c => simp [hc, string_join_cons, String.append_assoc]
          · rw [h4, h2]

/-- Splitting a stream splits its processing. -/
lemma processDeltas_append (available : List (String × String)) :
    ∀ (l1 l2 : List Delta) (acc : TurnAcc),
      processDeltas available acc (l1 ++ l2) =
        match processDeltas available acc l1 with
        | .error e => .error e
        | .ok acc1 => processDeltas available acc1 l2
  | [], l2, acc => by simp [processDeltas]
  | d :: l1, l2, acc => by
      have hl : processDeltas available acc ((d :: l1) ++ l2) =
          match processDelta available acc d with
          | .error e => .error e
          | .ok acc1 => processDeltas available acc1 (l1 ++ l2) := rfl
      have hr : processDeltas available acc (d :: l1) =
          match processDelta available acc d with
          | .error e => .error e
          | .ok acc1 => processDeltas available acc1 l1 := rfl
      rw [hl, hr]
      cases hd : processDelta available acc d with
      | error e => rfl
      | ok acc1 => exact processDeltas_append available l1 l2 acc1

/-- A stretch of deltas carrying no tool-call fragment is always consumed
successfully and leaves the pending-call list unchanged. -/
lemma processDeltas_noTool (available : List (String × String)) :
    ∀ (ds : List Delta) (acc : TurnAcc), (∀ d ∈ ds, d.toolCall = none) →
      ∃ acc2, processDeltas available acc ds = .ok acc2 ∧
        acc2.function_calls = acc.function_calls
  | [], acc, _ => ⟨acc, rfl, rfl⟩
  | d :: ds, acc, h => by
      have hd : d.toolCall = none := h d (List.mem_cons_self d ds)
      have hstep : ∃ acc1, processDelta available acc d = .ok acc1 ∧
          acc1.function_calls = acc.function_calls := by
        unfold processDelta
        rw [hd]
        cases hc : d.content with
        | none => exact ⟨acc, rfl, rfl⟩
        | some c => exact ⟨_, rfl, rfl⟩
      obtain ⟨acc1, h1, h2⟩ := hstep
      obtain ⟨acc2, h3, h4⟩ :=
        processDeltas_noTool available ds acc1 (fun x hx => h x (List.mem_cons_of_mem d hx))
      refine ⟨acc2, ?_, by rw [h4, h2]⟩
      unfold processDeltas
      rw [h1]
      exact h3

/-- C1: after the model stream of a turn is consumed successfully,
exactly one of the two outcomes occurs: a non-empty pending-call list
yields exactly one `server_select_function` frame listing the assembled
calls and no persisted message, an empty pending-call list yields no
`server_select_function` frame and exactly one persisted assistant
message whose content is the concatenation of the streamed content
fragments and which carries no tool calls. -/
theorem answer_turn_dichotomy (available : List (String × String)) (stream : List Delta)
    (acc : TurnAcc) (h : processDeltas available initAcc stream = .ok acc) :
    (acc.function_calls ≠ [] →
       answerQuestionTurn available stream =
         .ok { sent := acc.sent ++ [Frame.selectTools acc.function_calls], persisted := [] } ∧
       (acc.sent ++ [Frame.selectTools acc.function_calls]).filter isSelectFrame =
         [Frame.selectTools acc.function_calls]) ∧
    (acc.function_calls = [] →
       answerQuestionTurn available stream =
         .ok { sent := acc.sent,
               persisted := [{ role := "assistant",
                               content := some (String.join (stream.filterMap Delta.content)),
                               tool_call_id := none, tool_calls := none }] } ∧
       acc.sent.filter isSelectFrame = []) := by
  obtain ⟨hfull, hsent⟩ := processDeltas_ok_spec available stream initAcc acc h
  have hsent0 : acc.sent.filter isSelectFrame = [] := by
    rw [hsent]; rfl
  have hfull0 : acc.full_response = String.join (stream.filterMap Delta.content) := by
    rw [hfull]; simp [initAcc]
  constructor
  · intro hne
    constructor
    · unfold answerQuestionTurn
      rw [h]
      simp [List.isEmpty_iff, hne]
    · simp [List.filter_append, hsent0, isSelectFrame]
  · intro heq
    constructor
    · unfold answerQuestionTurn
      rw [h]
      simp [List.isEmpty_iff, heq, hfull0]
    · exact hsent0

/-- Witness for C1 on a concrete two-fragment stream with no tool calls. -/
theorem answer_turn_dichotomy_witness :
    ((([] : List FunctionCall) ≠ [] →
       answerQuestionTurn [] [⟨some "2+2 ", none⟩, ⟨some "is 4", none⟩] =
         .ok { sent := [Frame.answer "2+2 ", Frame.answer "is 4"] ++ [Frame.selectTools []],
               persisted := [] } ∧
       (([Frame.answer "2+2 ", Frame.answer "is 4"] ++
          [Frame.selectTools []]).filter isSelectFrame = [Frame.selectTools []])) ∧
     (([] : List FunctionCall) = [] →
       answerQuestionTurn [] [⟨some "2+2 ", none⟩, ⟨some "is 4", none⟩] =
         .ok { sent := [Frame.answer "2+2 ", Frame.answer "is 4"],
               persisted := [{ role := "assistant",
                               content := some (String.join
                                 (([⟨some "2+2 ", none⟩, ⟨some "is 4", none⟩] :
                                    List Delta).filterMap Delta.content)),
                               tool_call_id := none, tool_calls := none }] } ∧
       ([Frame.answer "2+2 ", Frame.answer "is 4"] : List Frame).filter isSelectFrame = [])) :=
  answer_turn_dichotomy [] [⟨some "2+2 ", none⟩, ⟨some "is 4", none⟩]
    ⟨[], "2+2 is 4", [Frame.answer "2+2 ", Frame.answer "is 4"]⟩ rfl

/-- C2 counterexample: when the id-bearing fragment of call A itself carries
argument text "x", the assembled arguments of A are "xyz" — the seed
followed by the two continuations — and not the concatenation "yz" of the
two continuation fragments alone, as the claim states. The arguments of B equal
its own fragment. -/
theorem stream_accumulation_counterexample :
    processDeltas [("f", "addrF"), ("g", "addrG")] initAcc
      [⟨none, some ⟨some "a1", some "f", "x"⟩⟩,
       ⟨none, some ⟨none, none, "y"⟩⟩,
       ⟨none, some ⟨none, none, "z"⟩⟩,
       ⟨none, some ⟨some "b1", some "g", "w"⟩⟩] =
      .ok ⟨[⟨"a1", "f", "xyz", "addrF"⟩, ⟨"b1", "g", "w", "addrG"⟩], "", []⟩ ∧
    ("xyz" : String) ≠ "yz" :=
  ⟨rfl, by decide⟩

/-- C2 (amended): for a delta sequence in which the id-bearing
fragment of call A (argument seed `sa`) is followed by two argument-only
continuations and then the id-bearing fragment of call B, the assembled
pending list contains exactly two calls — A with arguments
`sa ++ c1 ++ c2` (its seed followed by its two continuations) and B with
the arguments of its own fragment only — with addresses resolved from the
`available_functions` lookup. -/
theorem stream_accumulation (available : List (String × String))
    (ia na sa c1 c2 ib nb sb addrA addrB : String)
    (hA : dictLookup available na = some addrA)
    (hB : dictLookup available nb = some addrB) :
    processDeltas available initAcc
      [⟨none, some ⟨some ia, some na, sa⟩⟩,
       ⟨none, some ⟨none, none, c1⟩⟩,
       ⟨none, some ⟨none, none, c2⟩⟩,
       ⟨none, some ⟨some ib, some nb, sb⟩⟩] =
      .ok ⟨[⟨ia, na, sa ++ c1 ++ c2, addrA⟩, ⟨ib, nb, sb, addrB⟩], "", []⟩ := by
  simp [processDeltas, processDelta, appendToLastParams, initAcc, hA, hB]

/-- Witness for the amended C2 statement at concrete fragments. -/
theorem stream_accumulation_witness :
    processDeltas [("get_weather", "http://localhost:8001")] initAcc
      [⟨none, some ⟨some "t1", some "get_weather", ""⟩⟩,
       ⟨none, some ⟨none, none, "city="⟩⟩,
       ⟨none, some ⟨none, none, "HZ"⟩⟩,
       ⟨none, some ⟨some "t2", some "get_weather", "{}"⟩⟩] =
      .ok ⟨[⟨"t1", "get_weather", "" ++ "city=" ++ "HZ", "http://localhost:8001"⟩,
            ⟨"t2", "get_weather", "{}", "http://localhost:8001"⟩], "", []⟩ :=
  stream_accumulation [("get_weather", "http://localhost:8001")]
    "t1" "get_weather" "" "city=" "HZ" "t2" "get_weather" "{}"
    "http://localhost:8001" "http://localhost:8001" rfl rfl

/-- C8: a stream that emits a tool-call continuation fragment (no call
id) before any id-bearing fragment makes the turn fail with the
structured `MessageProcessingError(MSG_GPT_RESPONSE_ERROR)` — the
IndexError raised by `function_calls[-1]` is caught by the blanket
handler of `_answer_question` and does not escape the orchestrator. -/
theorem premature_continuation_structured_error (available : List (String × String))
    (pre rest : List Delta) (d : Delta) (f : ToolCallFragment)
    (hpre : ∀ x ∈ pre, x.toolCall = none)
    (hd : d.toolCall = some f) (hid : f.id = none) :
    answerQuestionTurn available (pre ++ d :: rest) =
      .error (.messageProcessing .MSG_GPT_RESPONSE_ERROR) := by
  obtain ⟨acc2, h2, hfc⟩ := processDeltas_noTool available pre initAcc hpre
  obtain ⟨fcs2, fr2, st2⟩ := acc2
  have hfc2 : fcs2 = [] := hfc
  subst hfc2
  have hstep : processDelta available ⟨[], fr2, st2⟩ d = .error .indexError := by
    obtain ⟨dc, dtc⟩ := d
    obtain ⟨fid, fn, fa⟩ := f
    have hd2 : dtc = some ⟨fid, fn, fa⟩ := hd
    have hid2 : fid = none := hid
    subst hd2
    subst hid2
    cases dc <;> rfl
  have hrun : processDeltas available initAcc (pre ++ d :: rest) =
      .error .indexError := by
    rw [processDeltas_append available pre (d :: rest) initAcc, h2]
    show processDeltas available ⟨[], fr2, st2⟩ (d :: rest) = .error .indexError
    have hone : processDeltas available ⟨[], fr2, st2⟩ (d :: rest) =
        match processDelta available ⟨[], fr2, st2⟩ d with
        | .error e => .error e
        | .ok acc1 => processDeltas available acc1 rest := rfl
    rw [hone, hstep]
  unfold answerQuestionTurn
  rw [hrun]

/-- Witness for C8 at a concrete single-fragment stream. -/
theorem premature_continuation_structured_error_witness :
    answerQuestionTurn [] ([] ++ (⟨none, some ⟨none, none, "x"⟩⟩ : Delta) :: []) =
      .error (.messageProcessing .MSG_GPT_RESPONSE_ERROR) :=
  premature_continuation_structured_error [] [] [] ⟨none, some ⟨none, none, "x"⟩⟩
    ⟨none, none, "x"⟩ (by intro x hx; cases hx) rfl rfl

/-- C3: the error kinds `_process_tool_result` actually reports, evaluated
at one failing input per failure cause, for an otherwise valid selected
call. A timeout reports `TOOL_TIMEOUT` and malformed parameters JSON
reports `TOOL_PARAMS_FORMAT_ERROR`, as the claim states; but a non-200
HTTP status reports `TOOL_EXECUTION_ERROR` instead of `TOOL_HTTP_ERROR`
(the `ToolExecutionError(TOOL_HTTP_ERROR)` raised at
`ConversationManager.py:245-248` is caught by the blanket
`except Exception` at line 272 and re-raised with the generic code), and
an unparseable response body reports `TOOL_PARAMS_FORMAT_ERROR` instead of
`TOOL_EXECUTION_ERROR` (both `json.loads` calls share the single
`except json.JSONDecodeError` clause at line 266). A parseable body
lacking the `result` field reports `TOOL_EXECUTION_ERROR` as claimed. In
every failure case the `Except.error` result carries no persisted tool
message. -/
theorem tool_failure_error_codes :
    (processToolResult ⟨some "t1", some "get_weather", some "{}", some "http://x"⟩ true .timeout
       = .error (.toolExecutionError .TOOL_TIMEOUT)) ∧
    (processToolResult ⟨some "t1", some "get_weather", some "bad", some "http://x"⟩ false
        (.response 200 (.parsed true "r"))
       = .error (.toolExecutionError .TOOL_PARAMS_FORMAT_ERROR)) ∧
    (processToolResult ⟨some "t1", some "get_weather", some "{}", some "http://x"⟩ true
        (.response 500 (.parsed true "r"))
       = .error (.toolExecutionError .TOOL_EXECUTION_ERROR)) ∧
    (processToolResult ⟨some "t1", some "get_weather", some "{}", some "http://x"⟩ true
        (.response 200 .unparseable)
       = .error (.toolExecutionError .TOOL_PARAMS_FORMAT_ERROR)) ∧
    (processToolResult ⟨some "t1", some "get_weather", some "{}", some "http://x"⟩ true
        (.response 200 (.parsed false ""))
       = .error (.toolExecutionError .TOOL_EXECUTION_ERROR)) :=
  ⟨rfl, rfl, rfl, rfl, rfl⟩

/-- C4: validation of a selected call with an empty `id` does fail and
does abort the whole execute-tools request — the second, individually
successful call is never executed and nothing is persisted — but the
reported error code is the generic `TOOL_EXECUTION_ERROR`, not
`TOOL_MISSING_ID`: the `ToolExecutionError(TOOL_MISSING_ID)` raised at
`ConversationManager.py:221-222` is caught by the blanket
`except Exception` at line 272 and re-raised with the generic code. A
call whose `id` key is absent altogether never reaches validation: the
`gpt_tool_calls` comprehension at `ConversationManager.py:50-60` raises a
bare KeyError first. -/
theorem missing_field_error_collapse :
    (processToolResult ⟨some "", some "t1", some "{}", some "http://x"⟩ true
        (.response 200 (.parsed true "ok"))
       = .error (.toolExecutionError .TOOL_EXECUTION_ERROR)) ∧
    (runSelectedTools
        [(⟨some "", some "t1", some "{}", some "http://x"⟩, true,
            .response 200 (.parsed true "ok")),
         (⟨some "t2", some "t2fn", some "{}", some "http://y"⟩, true,
            .response 200 (.parsed true "ok2"))]
       = ([], some (.toolExecutionError .TOOL_EXECUTION_ERROR))) ∧
    (processToolResult ⟨some "t2", some "t2fn", some "{}", some "http://y"⟩ true
        (.response 200 (.parsed true "ok2"))
       = .ok [{ role := "tool", content := some "ok2",
                tool_call_id := some "t2", tool_calls := none }]) ∧
    (answerQuestionWithTools
        [(⟨none, some "t1", some "{}", some "http://x"⟩, true,
            .response 200 (.parsed true "ok"))]
       = ([], some .keyError)) :=
  ⟨rfl, rfl, rfl, rfl⟩

/-! Heartbeat lemmas. -/

/-- A supervisor whose loop body raised an escaping exception performs no
further iteration. -/
lemma hbRun_escaped (s : HbState) (hesc : s.escaped = true) :
    ∀ l : List HbEvent, hbRun s l = s
  | [] => rfl
  | _ :: _ => by simp [hbRun, hesc]

/-- Running `k` consecutive timed-out attempts that exactly exhaust the
retry budget ends the loop with `is_running = false` and emits
`timeoutTrace k`. -/
lemma hbRun_timeout_exhaustion :
    ∀ (k : Nat) (s : HbState), 1 ≤ k → s.is_running = true → s.escaped = false →
      s.retry_count + k = s.max_retries →
      hbRun s (List.replicate k .ackTimeout) =
        { s with retry_count := s.max_retries, is_running := false,
                 trace := s.trace ++ timeoutTrace k }
  | 0, _, hk, _, _, _ => absurd hk (by simp)
  | 1, s, _, hrun, hesc, hcnt => by
      have hlt : s.retry_count < s.max_retries := by omega
      have hguard : (s.is_running && decide (s.retry_count < s.max_retries) && !s.escaped)
          = true := by
        simp [hrun, hesc, hlt]
      show (if s.is_running && decide (s.retry_count < s.max_retries) && !s.escaped
            then hbRun (hbStep s .ackTimeout) [] else s) = _
      rw [hguard]
      simp only [if_true]
      show hbStep s .ackTimeout = _
      unfold hbStep
      have hge : s.max_retries ≤ s.retry_count + 1 := by omega
      simp only [if_pos hge]
      have hmax : s.retry_count + 1 = s.max_retries := by omega
      rw [hmax]
      rfl
  | k + 2, s, _, hrun, hesc, hcnt => by
      have hlt : s.retry_count < s.max_retries := by omega
      have hguard : (s.is_running && decide (s.retry_count < s.max_retries) && !s.escaped)
          = true := by
        simp [hrun, hesc, hlt]
      show (if s.is_running && decide (s.retry_count < s.max_retries) && !s.escaped
            then hbRun (hbStep s .ackTimeout) (List.replicate (k + 1) .ackTimeout) else s) = _
      rw [hguard]
      simp only [if_true]
      have hstep : hbStep s .ackTimeout =
          { s with retry_count := s.retry_count + 1,
                   trace := s.trace ++
                     [.sent .heartbeat, .sent (.errorFrame .HEARTBEAT_TIMEOUT)] } := by
        unfold hbStep
        have hnge : ¬ s.max_retries ≤ s.retry_count + 1 := by omega
        simp only [if_neg hnge]
      rw [hstep]
      have ih := hbRun_timeout_exhaustion (k + 1)
        { s with retry_count := s.retry_count + 1,
                 trace := s.trace ++
                   [.sent .heartbeat, .sent (.errorFrame .HEARTBEAT_TIMEOUT)] }
        (by omega) hrun hesc
        (by show s.retry_count + 1 + (k + 1) = s.max_retries; omega)
      rw [ih]
      simp [timeoutTrace, List.append_assoc]

/-- The trace of an exhausting run ends with the fatal
`HEARTBEAT_MAX_RETRIES` error frame followed by the close with the
normal-closure code 1000 and the heartbeat-failure reason. -/
lemma timeoutTrace_tail :
    ∀ k : Nat, 1 ≤ k → ∃ mid, timeoutTrace k =
      mid ++ [.sent (.errorFrame .HEARTBEAT_MAX_RETRIES), .closedConn 1000 "心跳超时"]
  | 0, hk => absurd hk (by simp)
  | 1, _ => ⟨[.sent .heartbeat, .sent (.errorFrame .HEARTBEAT_TIMEOUT)], rfl⟩
  | k + 2, _ => by
      obtain ⟨mid, hmid⟩ := timeoutTrace_tail (k + 1) (by omega)
      exact ⟨[.sent .heartbeat, .sent (.errorFrame .HEARTBEAT_TIMEOUT)] ++ mid,
        by simp [timeoutTrace, hmid]⟩

/-- C5: from any running supervisor state with a fresh retry count,
`max_retries` consecutive attempts without an acknowledgement end the loop
with `is_running = false` and a trace ending in the fatal
`HEARTBEAT_MAX_RETRIES` error frame followed by the connection close with
the normal-closure code 1000 and the heartbeat-failure reason; and from
any running state whatever its current retry count (in particular a count
of 1..max_retries-1 accumulated by earlier timed-out attempts), an
acknowledgement arriving within the timeout resets `retry_count` to 0,
appends no close to the trace, and leaves the loop guard true, so the
supervisor continues. -/
theorem heartbeat_exhaustion_and_ack_reset (m : Nat) (s t : HbState)
    (hm : 1 ≤ m) (hrun : s.is_running = true) (hesc : s.escaped = false)
    (hretry : s.retry_count = 0) (hmax : s.max_retries = m)
    (htrun : t.is_running = true) (htesc : t.escaped = false)
    (htretry : t.retry_count < t.max_retries) :
    (hbRun s (List.replicate m .ackTimeout) =
       { s with retry_count := m, is_running := false,
                trace := s.trace ++ timeoutTrace m } ∧
     ∃ mid, timeoutTrace m =
       mid ++ [.sent (.errorFrame .HEARTBEAT_MAX_RETRIES), .closedConn 1000 "心跳超时"]) ∧
    (hbStep t .ack = { t with retry_count := 0, trace := t.trace ++ [.sent .heartbeat] } ∧
     (hbStep t .ack).is_running = true ∧
     (hbStep t .ack).retry_count < (hbStep t .ack).max_retries ∧
     (hbStep t .ack).escaped = false) := by
  subst hmax
  constructor
  · constructor
    · exact hbRun_timeout_exhaustion s.max_retries s hm hrun hesc (by omega)
    · exact timeoutTrace_tail s.max_retries hm
  · refine ⟨rfl, htrun, ?_, htesc⟩
    show (0 : Nat) < t.max_retries
    omega

/-- Witness for C5 at `max_retries = 3`: exhaustion from the fresh
supervisor state, and the acknowledgement reset from a state that has
already accumulated two timed-out attempts (`retry_count = 2`), where the
reset to 0 is a real change. -/
theorem heartbeat_exhaustion_and_ack_reset_witness :
    ((hbRun (hbInit 3) (List.replicate 3 .ackTimeout) =
       { hbInit 3 with retry_count := 3, is_running := false,
                       trace := (hbInit 3).trace ++ timeoutTrace 3 } ∧
     ∃ mid, timeoutTrace 3 =
       mid ++ [.sent (.errorFrame .HEARTBEAT_MAX_RETRIES), .closedConn 1000 "心跳超时"]) ∧
    (hbStep { hbInit 3 with retry_count := 2 } .ack =
       { { hbInit 3 with retry_count := 2 } with
           retry_count := 0,
           trace := ({ hbInit 3 with retry_count := 2 } : HbState).trace ++
             [.sent .heartbeat] } ∧
     (hbStep { hbInit 3 with retry_count := 2 } .ack).is_running = true ∧
     (hbStep { hbInit 3 with retry_count := 2 } .ack).retry_count <
       (hbStep { hbInit 3 with retry_count := 2 } .ack).max_retries ∧
     (hbStep { hbInit 3 with retry_count := 2 } .ack).escaped = false)) :=
  heartbeat_exhaustion_and_ack_reset 3 (hbInit 3) { hbInit 3 with retry_count := 2 }
    (by decide) rfl rfl rfl rfl rfl rfl (by decide)

/-- C9 counterexample: when the heartbeat-frame send fails because the
connection is already closed, the supervisor does not set `is_running`
to false (the assignment at `HeartbeatManager.py:50` is never reached
because the error-frame send at line 46 raises first) and it attempts two
further sends on the closed connection — the error frame from
the handler inside `send_heartbeat` and the error frame from the loop handler —
before the exception escapes. -/
theorem heartbeat_send_failure_counterexample :
    (hbRun (hbInit 3) [.connClosed]).is_running = true ∧
    (hbRun (hbInit 3) [.connClosed]).trace =
      [.sendFailed .heartbeat,
       .sendFailed (.errorFrame .SERVER_CONNECTION_ERROR),
       .sendFailed (.errorFrame .SERVER_CONNECTION_ERROR)] := by
  constructor
  · rfl
  · rfl

/-- C9 (amended): once the heartbeat-frame send fails because the
connection is already closed, the supervisor performs no further loop
iteration and sends no further heartbeat probe, but before stopping it
attempts two error-frame sends on the same closed connection (both
failing), and the ConnectionClosed exception escapes the loop with
`is_running` left unchanged (still true). -/
theorem heartbeat_send_failure_stops (s : HbState) (rest : List HbEvent)
    (hrun : s.is_running = true) (hretry : s.retry_count < s.max_retries)
    (hesc : s.escaped = false) :
    hbRun s (.connClosed :: rest) =
      { s with escaped := true,
               trace := s.trace ++
                 [.sendFailed .heartbeat,
                  .sendFailed (.errorFrame .SERVER_CONNECTION_ERROR),
                  .sendFailed (.errorFrame .SERVER_CONNECTION_ERROR)] } := by
  have hguard : (s.is_running && decide (s.retry_count < s.max_retries) && !s.escaped)
      = true := by
    simp [hrun, hesc, hretry]
  show (if s.is_running && decide (s.retry_count < s.max_retries) && !s.escaped
        then hbRun (hbStep s .connClosed) rest else s) = _
  rw [hguard]
  simp only [if_true]
  exact hbRun_escaped _ rfl rest

/-- Witness for the amended C9 statement: the schedule after the failed
send is ignored. -/
theorem heartbeat_send_failure_stops_witness :
    hbRun (hbInit 3) (.connClosed :: [.ack, .ackTimeout]) =
      { hbInit 3 with escaped := true,
                      trace := (hbInit 3).trace ++
                        [.sendFailed .heartbeat,
                         .sendFailed (.errorFrame .SERVER_CONNECTION_ERROR),
                         .sendFailed (.errorFrame .SERVER_CONNECTION_ERROR)] } :=
  heartbeat_send_failure_stops (hbInit 3) [.ack, .ackTimeout] rfl (by decide) rfl

/-- C6: no branch of the per-message loop body closes the connection: an
unparseable frame is answered with exactly one `MSG_JSON_PARSE_ERROR`
error frame and the loop continues, and every exception raised by a
dispatched handler is converted by the `except` clauses into exactly one
typed error frame on the same connection. -/
theorem router_error_containment :
    (∀ (inb : Inbound) (h : Option HandlerErr), (routeFrame inb h).closesConnection = false) ∧
    (∀ h : Option HandlerErr,
       routeFrame .unparseable h = ⟨[.errorFrame .MSG_JSON_PARSE_ERROR], false⟩) ∧
    (∀ (t : String) (e : HandlerErr), t ≠ "heartbeat_ack" →
       handlerDispatch t ≠ .invalidType →
       routeFrame (.typed t) (some e) = ⟨[errorFrameFor e], false⟩) := by
  refine ⟨?_, ?_, ?_⟩
  · intro inb h
    cases inb with
    | unparseable => rfl
    | noTypeField => rfl
    | typed t =>
        show (if t == "heartbeat_ack" then (⟨[], false⟩ : RouterStep)
              else match handlerDispatch t with
                | .invalidType => ⟨[.errorFrame .MSG_INVALID_TYPE], false⟩
                | target =>
                    match h with
                    | some e => ⟨[errorFrameFor e], false⟩
                    | none =>
                        ⟨if target = .logout then [.logoutSuccess] else [],
                         false⟩).closesConnection = false
        split
        · rfl
        · cases hdt : handlerDispatch t <;> cases h <;> rfl
  · intro h
    rfl
  · intro t e ht hd
    have hbeq : (t == "heartbeat_ack") = false := by
      simpa using ht
    show (if t == "heartbeat_ack" then (⟨[], false⟩ : RouterStep)
          else match handlerDispatch t with
            | .invalidType => ⟨[.errorFrame .MSG_INVALID_TYPE], false⟩
            | target =>
                match some e with
                | some e => ⟨[errorFrameFor e], false⟩
                | none =>
                    ⟨if target = .logout then [.logoutSuccess] else [],
                     false⟩) = ⟨[errorFrameFor e], false⟩
    rw [hbeq]
    cases hdt : handlerDispatch t
    case invalidType => exact absurd hdt hd
    all_goals simp

/-- Witness for C6 at a concrete known type, a concrete handler
exception, and an unparseable frame. -/
theorem router_error_containment_witness :
    ((routeFrame (.typed "user_question")
        (some (.toolExecution .TOOL_TIMEOUT))).closesConnection = false) ∧
    (routeFrame .unparseable none = ⟨[.errorFrame .MSG_JSON_PARSE_ERROR], false⟩) ∧
    (routeFrame (.typed "user_question") (some (.toolExecution .TOOL_TIMEOUT)) =
       ⟨[errorFrameFor (.toolExecution .TOOL_TIMEOUT)], false⟩) :=
  ⟨router_error_containment.1 (.typed "user_question") (some (.toolExecution .TOOL_TIMEOUT)),
   router_error_containment.2.1 none,
   router_error_containment.2.2 "user_question" (.toolExecution .TOOL_TIMEOUT)
     (by decide) (by decide)⟩

/-- C7: the dispatch table is not the eight-way one the claim states.
`MessageFormat.RequestType` has no `DELETE_CONVERSATION` or
`GET_CONVERSATION_LIST` member, so building the `message_handlers` dict
of `MessageHandler.handle_message` raises AttributeError before any
dispatch (modelled by `messageHandlerDispatchKeys = none`), and the
running router `GPTServer.handler` has no delete-conversation or
list-conversations branch at all: a frame of type `delete_conversation`
or `conversation_list` falls through to the unknown-type arm and is
answered with an `MSG_INVALID_TYPE` error frame, with the connection
left open — even though the handlers
`ConversationManager.delete_conversation` and
`ConversationManager.get_conversation_list` exist. -/
theorem dispatch_missing_delete_and_list :
    requestTypeValue "DELETE_CONVERSATION" = none ∧
    requestTypeValue "GET_CONVERSATION_LIST" = none ∧
    messageHandlerDispatchKeys = none ∧
    handlerDispatch "delete_conversation" = .invalidType ∧
    handlerDispatch "conversation_list" = .invalidType ∧
    routeFrame (.typed "delete_conversation") none =
      ⟨[.errorFrame .MSG_INVALID_TYPE], false⟩ ∧
    handlerDispatch "user_question" = .question ∧
    handlerDispatch "conversation_question" = .conversationQuestion ∧
    handlerDispatch "conversation_message" = .conversationMessage ∧
    handlerDispatch "execute_tools" = .executeTools ∧
    handlerDispatch "settings_add_server" = .settingsAddServer ∧
    handlerDispatch "logout" = .logout :=
  ⟨rfl, rfl, rfl, rfl, rfl, rfl, rfl, rfl, rfl, rfl, rfl, rfl⟩

/-- C10 counterexample: on a stored history containing a tool-calling
turn, the two coexisting implementations of
list-messages-for-conversation send different `conversation_message`
responses — `GPTServer.answer_conversation_message` keeps the
content-less assistant message and the tool message that
`ConversationManager.answer_conversation_message` filters out. -/
theorem conversation_views_differ :
    conversationMessageResponse "c1"
        (gptServerConversationView
          [⟨"system", some "prompt"⟩, ⟨"user", some "hi"⟩, ⟨"assistant", none⟩,
           ⟨"tool", some "42"⟩, ⟨"assistant", some "ok"⟩]) ≠
      conversationMessageResponse "c1"
        (conversationManagerView
          [⟨"system", some "prompt"⟩, ⟨"user", some "hi"⟩, ⟨"assistant", none⟩,
           ⟨"tool", some "42"⟩, ⟨"assistant", some "ok"⟩]) ∧
    gptServerConversationView
        [⟨"system", some "prompt"⟩, ⟨"user", some "hi"⟩, ⟨"assistant", none⟩,
         ⟨"tool", some "42"⟩, ⟨"assistant", some "ok"⟩] =
      [⟨"user", some "hi"⟩, ⟨"assistant", none⟩, ⟨"tool", some "42"⟩,
       ⟨"assistant", some "ok"⟩] ∧
    conversationManagerView
        [⟨"system", some "prompt"⟩, ⟨"user", some "hi"⟩, ⟨"assistant", none⟩,
         ⟨"tool", some "42"⟩, ⟨"assistant", some "ok"⟩] =
      [⟨"user", some "hi"⟩, ⟨"assistant", some "ok"⟩] := by
  refine ⟨?_, rfl, rfl⟩
  decide

/-- C10 (amended): the two implementations agree exactly on histories in
which every stored message is a system message, a user message, or an
assistant message with non-empty content; both then exclude precisely the
system messages. On histories containing tool messages or assistant
messages without content the class-level view retains those messages
while the instance-level view excludes them. -/
theorem conversation_views_agree (cid : String) (ms : List ChatMessage)
    (h : ∀ m ∈ ms, m.role = "system" ∨ m.role = "user" ∨
           (m.role = "assistant" ∧ contentTruthy m.content = true)) :
    conversationMessageResponse cid (gptServerConversationView ms) =
      conversationMessageResponse cid (conversationManagerView ms) := by
  unfold conversationMessageResponse
  have hlist : gptServerConversationView ms = conversationManagerView ms := by
    unfold gptServerConversationView conversationManagerView
      filter_valid_conversation_messages
    symm
    rw [List.filter_eq_self]
    intro m hm
    obtain ⟨hmem, hns⟩ := List.mem_filter.mp hm
    rcases h m hmem with hsys | huser | ⟨hass, htru⟩
    · rw [hsys] at hns
      simp at hns
    · simp [huser]
    · simp [hass, htru]
  rw [hlist]

/-- Witness for the amended C10 statement on a concrete tool-free
history. -/
theorem conversation_views_agree_witness :
    conversationMessageResponse "c1"
        (gptServerConversationView
          [⟨"system", some "prompt"⟩, ⟨"user", some "hi"⟩, ⟨"assistant", some "ok"⟩]) =
      conversationMessageResponse "c1"
        (conversationManagerView
          [⟨"system", some "prompt"⟩, ⟨"user", some "hi"⟩, ⟨"assistant", some "ok"⟩]) :=
  conversation_views_agree "c1"
    [⟨"system", some "prompt"⟩, ⟨"user", some "hi"⟩, ⟨"assistant", some "ok"⟩]
    (by decide)

end MWAB
